import Mathlib

/- Shallow embedding of PyTrack (src/PyTrack/Experiment.py): the Experiment class
   and the parts of its collaborators that the Experiment code reads.

   Modelling conventions:
   - JSON objects are modelled as association lists with string keys (key order is
     the iteration order of a Python dict; keys of a JSON object are distinct).
   - Python dict lookup d[k] that may raise KeyError, list indexing that may raise
     IndexError, and the NameError from an unassigned local variable are modelled
     with Except String.
   - Numeric indicator values are modelled as Int.  A cell of the indicator matrix
     is Option (List Int): some vs is a proper value array, none is a cell that
     cannot be iterated over (the uninitialised object-dtype entry of a fresh
     numpy array, or a malformed value array).
   - The Subject class lives outside this module; a Subject is modelled by the
     fields the Experiment code reads (constructor arguments that matter to the
     claims, subj_type, name, and the aggregate_meta mapping produced by
     subjectAnalysis, which is external).
   - GUI interaction (drawAOI) is external; its result enters as a parameter. -/

namespace PyTrack

/-- A cell of the indicator matrix: a value array, or a value that cannot be
iterated over (uninitialised object-dtype entry or malformed array). -/
abbrev Cell := Option (List Int)

/-- A 2D numpy array of cells, as a list of rows. -/
abbrev Matrix2D := List (List Cell)

/-- A scalar appearing in a dataframe row: a numeric indicator value or a string
(subject type, factor value, stimulus type, subject name). -/
inductive Val where
  | num (n : Int)
  | str (s : String)
  deriving DecidableEq

/-- Lookup in a Python dict modelled as an association list. -/
def dlookup {α : Type} (k : String) : List (String × α) → Option α
  | [] => none
  | p :: rest => if p.1 = k then some p.2 else dlookup k rest

/-- Python dict update d.update(\x7bk : v\x7d): replace the value at an existing
key in place, otherwise append the new binding at the end. -/
def dinsert {α : Type} (k : String) (v : α) (l : List (String × α)) : List (String × α) :=
  if (dlookup k l).isSome then
    l.map (fun p => if p.1 = k then (k, v) else p)
  else l ++ [(k, v)]

/-- Safe list indexing (Python indexing raises IndexError out of range). -/
def nth {α : Type} : List α → Nat → Option α
  | [], _ => none
  | x :: _, 0 => some x
  | _ :: xs, n + 1 => nth xs n

/-- Python membership test x in l for strings. -/
def hasStr (x : String) : List String → Bool
  | [] => false
  | y :: ys => if y = x then true else hasStr x ys

/-- Index of the first occurrence of a string in a list (meaningful when present). -/
def idxOf (s : String) : List String → Nat
  | [] => 0
  | x :: xs => if x = s then 0 else idxOf s xs + 1

/-- Concatenation of the lists produced for each element, in order. -/
def catMap {α β : Type} (f : α → List β) : List α → List β
  | [] => []
  | x :: xs => f x ++ catMap f xs

/-- Python enumerate, starting at a given index. -/
def enumF {α : Type} : Nat → List α → List (Nat × α)
  | _, [] => []
  | n, x :: xs => (n, x) :: enumF (n + 1) xs

/-- Number of occurrences of a string in a list. -/
def countOcc (s : String) : List String → Nat
  | [] => 0
  | x :: xs => (if x = s then 1 else 0) + countOcc s xs

/-- The experiment JSON configuration file, restricted to the keys the
Experiment code reads.  The code accesses the Stimuli object both as
category to list-of-stimulus-names (self.stimuli indexing) and as
category to stimulus-name to parameter mapping (within-factor lookups),
so the embedding carries both views. -/
structure Config where
  path : String
  experimentName : String
  subjects : List (String × List (String × List (String × String)))
  stimuli : List (String × List String)
  stimuliParams : List (String × List (String × List (String × String)))
  columnsOfInterest : List (String × List String)
  displayWidth : Int
  displayHeight : Int

/-- Experiment.stimuliArrayInitialisation: copies the Stimuli object of the
JSON file key by key into a dict. -/
def stimuliArrayInitialisation (c : Config) : List (String × List String) :=
  c.stimuli

/-- Inner loop of columnsArrayInitialisation: append, for each column class in
order, the names listed under Columns_of_interest for that class (KeyError when
the class is missing from the JSON file). -/
def columnsGo (c : Config) : List String → List String → Except String (List String)
  | acc, [] => .ok acc
  | acc, cls :: rest =>
    match dlookup cls c.columnsOfInterest with
    | none => .error ("KeyError: " ++ cls)
    | some cols => columnsGo c (acc ++ cols) rest

/-- Experiment.columnsArrayInitialisation: the column classes are the sensors
list followed by the class Extra. -/
def columnsArrayInitialisation (c : Config) (sensors : List String) : Except String (List String) :=
  columnsGo c [] (sensors ++ ["Extra"])

/-- The Subject collaborator (defined outside this module), modelled by the
constructor arguments relevant to the claims and by the aggregate_meta mapping
(stimulus type to indicator name to value array) that subjectAnalysis, an
external computation, produces. -/
structure Subject where
  path : String
  name : String
  subjType : String
  database : String
  readingMethod : String
  aggregate_meta : List (String × List (String × Cell))
  deriving DecidableEq

/-- The (subject type, subject name) pairs listed in the configuration, in the
iteration order of subjectArrayInitialisation (grouped by type). -/
def subjectNamePairs (c : Config) : List (String × String) :=
  (c.subjects.map (fun g => g.2.map (fun s => (g.1, s.1)))).flatten

/-- Experiment.subjectArrayInitialisation: the local variable database is only
assigned for reading methods SQL and CSV; for any other reading method the
first Subject construction raises a NameError.  One Subject is built per
subject name, grouped by subject type; aggregate_meta starts empty (it is
produced later by subjectAnalysis). -/
def subjectArrayInitialisation (c : Config) (readingMethod : String) : Except String (List Subject) :=
  let database : Option String :=
    if readingMethod = "SQL" then
      some ("sqlite:///" ++ c.path ++ "/Data/" ++ c.experimentName ++ ".db")
    else if readingMethod = "CSV" then
      some (c.path ++ "/Data/csv_files")
    else none
  match database with
  | some db =>
    .ok ((subjectNamePairs c).map (fun p =>
      ⟨c.path, p.2, p.1, db, readingMethod, []⟩))
  | none =>
    if subjectNamePairs c = [] then .ok []
    else .error "NameError: name database is not defined"

/-- The aoi argument of the Experiment constructor: a string or a tuple of
coordinates. -/
inductive AoiArg where
  | str (s : String)
  | tup (t : Int × Int × Int × Int)

/-- AOI coordinate selection in Experiment.init: for a string argument, draw
calls the interactive drawAOI (its result is the drawResult parameter) and any
other string yields the full display rectangle from the configuration; a tuple
argument is taken unchanged. -/
def aoiCoords (c : Config) (aoi : AoiArg) (drawResult : Int × Int × Int × Int) :
    Int × Int × Int × Int :=
  match aoi with
  | .str s => if s = "draw" then drawResult else (0, 0, c.displayWidth, c.displayHeight)
  | .tup t => t

/-- The Experiment object, restricted to the attributes the claims read. -/
structure Experiment where
  path : String
  name : String
  sensors : List String
  aoi_coords : Int × Int × Int × Int
  columns : List String
  stimuli : List (String × List String)
  subjects : List Subject
  meta_matrix_dict : List String × List (String × Matrix2D)

/-- The meta_matrix_dict value assigned by Experiment.init: a fresh string
array of length len(subjects) and an empty dict. -/
def initMetaMatrixDict (subjects : List Subject) : List String × List (String × Matrix2D) :=
  (List.replicate subjects.length "", [])

/-- Experiment.init: read the configuration, set the AOI coordinates, then
build columns, stimuli, subjects and the initial meta_matrix_dict. -/
def experimentInit (c : Config) (readingMethod : String) (sensors : List String)
    (aoi : AoiArg) (drawResult : Int × Int × Int × Int) : Except String Experiment :=
  match columnsArrayInitialisation c sensors with
  | .error msg => .error msg
  | .ok columns =>
    match subjectArrayInitialisation c readingMethod with
    | .error msg => .error msg
    | .ok subjects =>
      .ok ⟨c.path, c.experimentName, sensors, aoiCoords c aoi drawResult, columns,
           stimuliArrayInitialisation c, subjects, initMetaMatrixDict subjects⟩

/-- Python list.index: the index of the element when present, ValueError when
absent. -/
def listIndex (names : List String) (stim : String) : Except String Int :=
  if hasStr stim names then .ok (idxOf stim names : Int) else .error "ValueError"

/-- The category search loop of Experiment.getMetaData for a non-None stimulus:
the accumulator carries the current (stim_cat, stim_ind); each iteration sets
stim_ind with list.index (which can raise) and breaks when stim_ind is not -1. -/
def stimSearchLoop (stim : String) :
    List (String × List String) → String × Int → Except String (String × Int)
  | [], acc => .ok acc
  | (cat, names) :: rest, acc =>
    match listIndex names stim with
    | .error msg => .error msg
    | .ok ind =>
      if ind ≠ -1 then .ok (cat, ind)
      else stimSearchLoop stim rest (acc.1, ind)

/-- The stimulus search of Experiment.getMetaData, starting from the initial
values stim_cat = "" and stim_ind = -1. -/
def stimSearch (stimuli : List (String × List String)) (stim : String) :
    Except String (String × Int) :=
  stimSearchLoop stim stimuli ("", -1)

/-- A fresh numpy object array of shape (n, m): every cell uninitialised. -/
def mkMatrix (n m : Nat) : Matrix2D :=
  List.replicate n (List.replicate m none)

/-- Assignment M[i, j] = v on a 2D numpy array: IndexError out of bounds. -/
def setCell (M : Matrix2D) (i j : Nat) (v : Cell) : Except String Matrix2D :=
  match nth M i with
  | none => .error "IndexError"
  | some row =>
    match nth row j with
    | none => .error "IndexError"
    | some _ => .ok (M.set i (row.set j v))

/-- Inner loop of the first phase of metaMatrixInitialisation: for each meta
column of one sensor type, bind a fresh (n, m) object array in the dict. -/
def initCols (n m : Nat) : List (String × Matrix2D) → List String → List (String × Matrix2D)
  | d, [] => d
  | d, mc :: rest => initCols n m (dinsert mc (mkMatrix n m) d) rest

/-- First phase of metaMatrixInitialisation: iterate the Sensor.meta_cols dict
(sensor type to list of meta columns). -/
def initIndicators (n m : Nat) :
    List (String × Matrix2D) → List (String × List String) → List (String × Matrix2D)
  | d, [] => d
  | d, (_, cols) :: rest => initIndicators n m (initCols n m d cols) rest

/-- Innermost fill loop of metaMatrixInitialisation: for each meta of one
stimulus type of one subject, write the value array into the matrix of that
meta at (sub_index, stim_index); KeyError when the meta has no matrix. -/
def fillMetas (si sti : Nat) :
    List (String × Matrix2D) → List (String × Cell) → Except String (List (String × Matrix2D))
  | d, [] => .ok d
  | d, (meta, v) :: rest =>
    match dlookup meta d with
    | none => .error ("KeyError: " ++ meta)
    | some M =>
      match setCell M si sti v with
      | .error msg => .error msg
      | .ok M2 => fillMetas si sti (dinsert meta M2 d) rest

/-- Middle fill loop of metaMatrixInitialisation: enumerate the stimulus types
of one subject aggregate_meta. -/
def fillStims (si : Nat) :
    Nat → List (String × Matrix2D) → List (String × List (String × Cell)) →
    Except String (List (String × Matrix2D))
  | _, d, [] => .ok d
  | sti, d, (_, metas) :: rest =>
    match fillMetas si sti d metas with
    | .error msg => .error msg
    | .ok d2 => fillStims si (sti + 1) d2 rest

/-- Outer fill loop of metaMatrixInitialisation: enumerate the subjects, record
each subject type in component 0 and fill the matrices from aggregate_meta
(subjectAnalysis, which produces aggregate_meta, is external). -/
def fillSubjects :
    Nat → List String × List (String × Matrix2D) → List Subject →
    Except String (List String × List (String × Matrix2D))
  | _, mm, [] => .ok mm
  | si, mm, sub :: rest =>
    match fillStims si 0 mm.2 sub.aggregate_meta with
    | .error msg => .error msg
    | .ok d2 => fillSubjects (si + 1) (mm.1.set si sub.subjType, d2) rest

/-- Experiment.metaMatrixInitialisation: bind a fresh
(len(subjects), len(stimuli)) object array for every meta column of
Sensor.meta_cols, then fill the matrices from each subject aggregate_meta. -/
def metaMatrixInitialisation (metaCols : List (String × List String))
    (subjects : List Subject) (stimuli : List (String × List String))
    (mm : List String × List (String × Matrix2D)) :
    Except String (List String × List (String × Matrix2D)) :=
  fillSubjects 0 (mm.1, initIndicators subjects.length stimuli.length mm.2 metaCols) subjects

/-- Shape invariant of one indicator matrix: n rows of m cells each. -/
def shapeOK (n m : Nat) (M : Matrix2D) : Prop :=
  M.length = n ∧ ∀ row ∈ M, row.length = m

/-- The between-factor lookup of analyse:
json_data of Subjects, subject type, subject name, parameter. -/
def lookupBetween (c : Config) (subjType name param : String) : Option String :=
  match dlookup subjType c.subjects with
  | none => none
  | some grp =>
    match dlookup name grp with
    | none => none
    | some ps => dlookup param ps

/-- The within-factor lookup of analyse: stimulus_name is self.stimuli of the
stimulus type indexed by the stimulus-type index, then json_data of Stimuli,
stimulus type, stimulus name, parameter. -/
def lookupWithin (c : Config) (stimuliType : String) (stimuliIndex : Nat) (param : String) :
    Option String :=
  match dlookup stimuliType c.stimuli with
  | none => none
  | some names =>
    match nth names stimuliIndex with
    | none => none
    | some stimName =>
      match dlookup stimuliType c.stimuliParams with
      | none => none
      | some grp =>
        match dlookup stimName grp with
        | none => none
        | some ps => dlookup param ps

/-- The between-factor loop of analyse: Subject_type is skipped (it already has
its own row entry); a missing parameter prints a message and appends nothing. -/
def betweenVals (c : Config) (subjType name : String) : List String → List Val × List String
  | [] => ([], [])
  | param :: rest =>
    if param = "Subject_type" then betweenVals c subjType name rest
    else
      match lookupBetween c subjType name param with
      | some v =>
        let r := betweenVals c subjType name rest
        (Val.str v :: r.1, r.2)
      | none =>
        let r := betweenVals c subjType name rest
        (r.1, ("Between subject paramter: " ++ param ++ " not defined in the json file") :: r.2)

/-- The within-factor loop of analyse: Stimuli_type is skipped; a failed lookup
prints a message and appends nothing. -/
def withinVals (c : Config) (stimuliType : String) (stimuliIndex : Nat) :
    List String → List Val × List String
  | [] => ([], [])
  | param :: rest =>
    if param = "Stimuli_type" then withinVals c stimuliType stimuliIndex rest
    else
      match lookupWithin c stimuliType stimuliIndex param with
      | some v =>
        let r := withinVals c stimuliType stimuliIndex rest
        (Val.str v :: r.1, r.2)
      | none =>
        let r := withinVals c stimuliType stimuliIndex rest
        (r.1, ("Within stimuli parameter: " ++ param ++ " not defined in the json file") :: r.2)

/-- One row of the dataframe built by analyse for one value: the value, the
subject type, the extra between factors, the stimulus type, the extra within
factors and the subject name, with the messages both factor loops printed. -/
def buildRowFor (c : Config) (betw within : List String) (sub : Subject)
    (stimuliType : String) (stimuliIndex : Nat) (v : Int) : List Val × List String :=
  let b := betweenVals c sub.subjType sub.name betw
  let w := withinVals c stimuliType stimuliIndex within
  (Val.num v :: Val.str sub.subjType :: (b.1 ++ Val.str stimuliType :: (w.1 ++ [Val.str sub.name])),
   b.2 ++ w.2)

/-- The value loop of analyse over one value array: each row is appended to the
dataframe with data.loc, which raises on a length mismatch with the columns;
that exception is caught by the surrounding except, which prints a message and
abandons the rest of this value array.  The isnan check only prints and the
embedded values are integers, so it is omitted. -/
def cellRows (ncols : Nat) (c : Config) (betw within : List String) (sub : Subject)
    (stimuliType : String) (stimuliIndex : Nat) : List Int → List (List Val) × List String
  | [] => ([], [])
  | v :: rest =>
    if (buildRowFor c betw within sub stimuliType stimuliIndex v).1.length = ncols then
      ((buildRowFor c betw within sub stimuliType stimuliIndex v).1 ::
        (cellRows ncols c betw within sub stimuliType stimuliIndex rest).1,
       (buildRowFor c betw within sub stimuliType stimuliIndex v).2 ++
        (cellRows ncols c betw within sub stimuliType stimuliIndex rest).2)
    else
      (([] : List (List Val)),
       (buildRowFor c betw within sub stimuliType stimuliIndex v).2 ++
        ["Error in data instantiation"])

/-- Processing of one indicator-matrix cell inside the try of analyse: a cell
that cannot be iterated over raises at the for statement, which the except
turns into a printed message and no rows. -/
def processCell (ncols : Nat) (c : Config) (betw within : List String) (sub : Subject)
    (stimuliType : String) (stimuliIndex : Nat) : Cell → List (List Val) × List String
  | none => ([], ["Error in data instantiation"])
  | some vs => cellRows ncols c betw within sub stimuliType stimuliIndex vs

/-- The read meta_matrix_dict of meta at (sub_index, stim_index) in analyse;
this read sits outside the try, so its KeyError or IndexError propagates. -/
def getCell (mm : List (String × Matrix2D)) (meta : String) (i j : Nat) : Except String Cell :=
  match dlookup meta mm with
  | none => .error ("KeyError: " ++ meta)
  | some M =>
    match nth M i with
    | none => .error "IndexError"
    | some row =>
      match nth row j with
      | none => .error "IndexError"
      | some cell => .ok cell

/-- Whether an Except value is a success. -/
def exOk {ε α : Type} : Except ε α → Bool
  | .ok _ => true
  | .error _ => false

/-- The cell carried by a successful cell read, defaulting to the
non-iterable cell. -/
def exCell : Except String Cell → Cell
  | .ok cell => cell
  | .error _ => none

/-- Whether a cell read succeeded and yields a proper value array. -/
def cellSome : Except String Cell → Bool
  | .ok (some _) => true
  | .ok none => false
  | .error _ => false

/-- The value array of a successful cell read, defaulting to the empty array. -/
def cellValues : Except String Cell → List Int
  | .ok (some vs) => vs
  | .ok none => []
  | .error _ => []

/-- A pandas dataframe, restricted to column names and rows. -/
structure DataFrame where
  columns : List String
  rows : List (List Val)
  deriving DecidableEq

/-- The stimulus-type loop of analyse for one subject: enumerate the stimulus
types of aggregate_meta, read the matrix cell (whose failure propagates) and
process it under the try. -/
def stimLoop (c : Config) (mm : List (String × Matrix2D)) (meta : String) (ncols : Nat)
    (betw within : List String) (si : Nat) (sub : Subject) :
    Nat → List (String × List (String × Cell)) → Except String (List (List Val) × List String)
  | _, [] => .ok ([], [])
  | sti, (stimType, _) :: rest =>
    match getCell mm meta si sti with
    | .error msg => .error msg
    | .ok cell =>
      let r := processCell ncols c betw within sub stimType sti cell
      match stimLoop c mm meta ncols betw within si sub (sti + 1) rest with
      | .error msg => .error msg
      | .ok r2 => .ok (r.1 ++ r2.1, r.2 ++ r2.2)

/-- The subject loop of analyse: enumerate the subjects. -/
def subLoop (c : Config) (mm : List (String × Matrix2D)) (meta : String) (ncols : Nat)
    (betw within : List String) : Nat → List Subject → Except String (List (List Val) × List String)
  | _, [] => .ok ([], [])
  | si, sub :: rest =>
    match stimLoop c mm meta ncols betw within si sub 0 sub.aggregate_meta with
    | .error msg => .error msg
    | .ok r =>
      match subLoop c mm meta ncols betw within (si + 1) rest with
      | .error msg => .error msg
      | .ok r2 => .ok (r.1 ++ r2.1, r.2 ++ r2.2)

/-- The per-indicator dataframe assembly of analyse: the columns are the meta
name, the between factors, the within factors and subject; the rows come from
iterating subjects and stimulus types.  The second component collects the
printed messages. -/
def buildData (c : Config) (mm : List (String × Matrix2D)) (meta : String)
    (betw within : List String) (subjects : List Subject) :
    Except String (DataFrame × List String) :=
  match subLoop c mm meta (meta :: (betw ++ (within ++ ["subject"]))).length betw within 0 subjects with
  | .error msg => .error msg
  | .ok r => .ok (⟨meta :: (betw ++ (within ++ ["subject"])), r.1⟩, r.2)

/-- The indicator filter of analyse: skip indicators that are never considered
and, when all is not in the parameter list, indicators not in the parameter
list. -/
def metaFilter (notConsidered parameterList : List String) (metas : List String) : List String :=
  metas.filter (fun meta =>
    !(hasStr meta notConsidered) && (hasStr "all" parameterList || hasStr meta parameterList))

/-- The sensor loop of analyse selecting the indicators to analyse: for each
sensor in order, the filtered meta columns of Sensor.meta_cols for that sensor
(KeyError when the sensor is missing). -/
def metasGo (notConsidered parameterList : List String) (metaCols : List (String × List String)) :
    List String → Except String (List String)
  | [] => .ok []
  | sen :: rest =>
    match dlookup sen metaCols with
    | none => .error ("KeyError: " ++ sen)
    | some metas =>
      match metasGo notConsidered parameterList metaCols rest with
      | .error msg => .error msg
      | .ok ms => .ok (metaFilter notConsidered parameterList metas ++ ms)

/-- The indicators analysed by analyse: pupil_size and pupil_size_downsample
are never considered, and the revisit indicators only when GazeAOI is among the
EyeTracker columns of interest of the JSON file. -/
def metasAnalysed (c : Config) (sensors : List String) (metaCols : List (String × List String))
    (parameterList : List String) : Except String (List String) :=
  match dlookup "EyeTracker" c.columnsOfInterest with
  | none => .error "KeyError: EyeTracker"
  | some eyeCols =>
    metasGo
      (["pupil_size", "pupil_size_downsample"] ++
        (if hasStr "GazeAOI" eyeCols then [] else ["no_revisits", "first_pass", "second_pass"]))
      parameterList metaCols sensors

/-- The dataframe assembly loop of analyse over the analysed indicators (the
statistical tests fed with each dataframe are external library calls and are
not modelled). -/
def analyseAll (c : Config) (mm : List (String × Matrix2D)) (betw within : List String)
    (subjects : List Subject) : List String → Except String (List (String × DataFrame × List String))
  | [] => .ok []
  | meta :: rest =>
    match buildData c mm meta betw within subjects with
    | .error msg => .error msg
    | .ok r =>
      match analyseAll c mm betw within subjects rest with
      | .error msg => .error msg
      | .ok others => .ok ((meta, r.1, r.2) :: others)

/-- Experiment.analyse, restricted to the dataframe assembly: select the
indicators, then build one dataframe (and printed-message list) per indicator. -/
def analyse (c : Config) (mm : List (String × Matrix2D)) (sensors : List String)
    (metaCols : List (String × List String)) (parameterList betw within : List String)
    (subjects : List Subject) : Except String (List (String × DataFrame × List String)) :=
  match metasAnalysed c sensors metaCols parameterList with
  | .error msg => .error msg
  | .ok metas => analyseAll c mm betw within subjects metas

/- ### Generic helper lemmas -/

/-- A natural number cast to Int is never -1. -/
lemma natCast_ne_negOne (n : Nat) : (n : Int) ≠ -1 := by
  omega

/-- Values found by dlookup satisfy any property all values of the list satisfy. -/
lemma dlookup_prop {α : Type} {P : α → Prop} :
    ∀ {l : List (String × α)} {k : String} {v : α},
      (∀ p ∈ l, P p.2) → dlookup k l = some v → P v := by
  intro l
  induction l with
  | nil => intro k v _ h; simp [dlookup] at h
  | cons p rest ih =>
    intro k v hall h
    rw [dlookup] at h
    split at h
    · injection h with h2
      rw [← h2]
      exact hall p (by simp)
    · exact ih (fun q hq => hall q (by simp [hq])) h

/-- dinsert preserves a property of all values when the inserted value has it. -/
lemma dinsert_values_prop {α : Type} {P : α → Prop} (k : String) (v : α)
    (l : List (String × α)) (hall : ∀ p ∈ l, P p.2) (hv : P v) :
    ∀ p ∈ dinsert k v l, P p.2 := by
  intro p hp
  unfold dinsert at hp
  split at hp
  · obtain ⟨q, hq, hfq⟩ := List.mem_map.mp hp
    by_cases hqk : q.1 = k
    · rw [if_pos hqk] at hfq; rw [← hfq]; exact hv
    · rw [if_neg hqk] at hfq; rw [← hfq]; exact hall q hq
  · rcases List.mem_append.mp hp with h | h
    · exact hall p h
    · simp only [List.mem_singleton] at h
      rw [h]
      exact hv

/-- When a key is absent the in-place replacement map is the identity. -/
lemma map_replace_of_absent {α : Type} (k : String) (v : α) :
    ∀ (l : List (String × α)), dlookup k l = none →
      l.map (fun p => if p.1 = k then (k, v) else p) = l := by
  intro l
  induction l with
  | nil => intro _; rfl
  | cons p rest ih =>
    intro hp
    rw [dlookup] at hp
    split at hp
    · exact absurd hp (by simp)
    · next hk => simp only [List.map, if_neg hk, ih hp]

/-- Looking up the inserted key finds the inserted value. -/
lemma dlookup_dinsert_self {α : Type} (k : String) (v : α) :
    ∀ (l : List (String × α)), dlookup k (dinsert k v l) = some v := by
  intro l
  unfold dinsert
  split
  · next hp =>
    induction l with
    | nil => simp [dlookup] at hp
    | cons p rest ih =>
      by_cases hk : p.1 = k
      · simp [List.map, hk, dlookup]
      · rw [dlookup, if_neg hk] at hp
        simp only [List.map, if_neg hk, dlookup, if_neg hk]
        exact ih hp
  · induction l with
    | nil => simp [dlookup]
    | cons p rest ih =>
      next hp =>
      rw [dlookup] at hp
      by_cases hk : p.1 = k
      · rw [if_pos hk] at hp; simp at hp
      · rw [if_neg hk] at hp
        simp only [List.cons_append, dlookup, if_neg hk]
        exact ih hp

/-- The in-place replacement map keeps every present key present. -/
lemma isSome_dlookup_map_replace {α : Type} (k2 k : String) (v : α) :
    ∀ (l : List (String × α)), (dlookup k2 l).isSome = true →
      (dlookup k2 (l.map (fun p => if p.1 = k then (k, v) else p))).isSome = true := by
  intro l
  induction l with
  | nil => intro h; simp [dlookup] at h
  | cons p rest ih =>
    intro h
    by_cases hk : p.1 = k
    · by_cases h2 : k = k2
      · simp only [List.map, if_pos hk, dlookup, if_pos h2, Option.isSome_some]
      · have hne : ¬p.1 = k2 := by rw [hk]; exact h2
        rw [dlookup, if_neg hne] at h
        simp only [List.map, if_pos hk, dlookup, if_neg h2]
        exact ih h
    · by_cases h2 : p.1 = k2
      · simp only [List.map, if_neg hk, dlookup, if_pos h2, Option.isSome_some]
      · rw [dlookup, if_neg h2] at h
        simp only [List.map, if_neg hk, dlookup, if_neg h2]
        exact ih h

/-- Appending on the right keeps every present key present. -/
lemma isSome_dlookup_append {α : Type} (k2 : String) (l2 : List (String × α)) :
    ∀ (l : List (String × α)), (dlookup k2 l).isSome = true →
      (dlookup k2 (l ++ l2)).isSome = true := by
  intro l
  induction l with
  | nil => intro h; simp [dlookup] at h
  | cons p rest ih =>
    intro h
    rw [dlookup] at h
    by_cases h2 : p.1 = k2
    · simp only [List.cons_append, dlookup, if_pos h2, Option.isSome_some]
    · rw [if_neg h2] at h
      simp only [List.cons_append, dlookup, if_neg h2]
      exact ih h

/-- dinsert keeps every present key present. -/
lemma isSome_dlookup_dinsert {α : Type} (k2 k : String) (v : α) (l : List (String × α))
    (h : (dlookup k2 l).isSome = true) :
    (dlookup k2 (dinsert k v l)).isSome = true := by
  unfold dinsert
  split
  · exact isSome_dlookup_map_replace k2 k v l h
  · exact isSome_dlookup_append k2 [(k, v)] l h

/-- Membership in an enumeration of a list implies membership of the element. -/
lemma enumF_mem_snd {α : Type} :
    ∀ (l : List α) (n : Nat) (p : Nat × α), p ∈ enumF n l → p.2 ∈ l := by
  intro l
  induction l with
  | nil => intro n p h; simp [enumF] at h
  | cons x xs ih =>
    intro n p h
    rw [enumF] at h
    rcases List.mem_cons.mp h with h | h
    · rw [h]; simp
    · exact List.mem_cons_of_mem _ (ih (n + 1) p h)

/-- catMap is pointwise: equal functions on the members give equal results. -/
lemma catMap_congr {α β : Type} {f g : α → List β} :
    ∀ {l : List α}, (∀ x ∈ l, f x = g x) → catMap f l = catMap g l := by
  intro l
  induction l with
  | nil => intro _; rfl
  | cons x xs ih =>
    intro h
    rw [catMap, catMap, h x (by simp), ih (fun y hy => h y (by simp [hy]))]

/- ### C10: AOI coordinate handling -/

/-- C10: for every string value of the aoi constructor argument other than
draw (not only NA), aoi_coords is the full display rectangle
(0, 0, Display_width, Display_height) from the configuration, and for every
tuple value aoi_coords is that tuple unchanged. -/
theorem aoi_full_display_for_non_draw_strings (c : Config)
    (drawResult : Int × Int × Int × Int) (s : String) (t : Int × Int × Int × Int)
    (hs : s ≠ "draw") :
    aoiCoords c (.str s) drawResult = (0, 0, c.displayWidth, c.displayHeight) ∧
    aoiCoords c (.tup t) drawResult = t := by
  constructor
  · simp [aoiCoords, hs]
  · rfl

theorem aoi_full_display_for_non_draw_strings_witness :
    ("XYZ" : String) ≠ "draw" ∧
    (aoiCoords ⟨"p", "e", [], [], [], [], 1280, 720⟩ (.str "XYZ") (9, 9, 9, 9) =
        (0, 0, 1280, 720) ∧
      aoiCoords ⟨"p", "e", [], [], [], [], 1280, 720⟩ (.tup (1, 2, 3, 4)) (9, 9, 9, 9) =
        (1, 2, 3, 4)) :=
  ⟨by decide, aoi_full_display_for_non_draw_strings _ _ _ _ (by decide)⟩

/- ### C5: data source selection by reading method -/

/-- C5: subjectArrayInitialisation selects the data source by reading method:
with SQL every Subject is built against the single experiment database at
path/Data/Experiment_name.db, with CSV against the directory
path/Data/csv_files; in both cases the list has one Subject per subject name
listed in the configuration, grouped by subject type. -/
theorem subject_list_by_reading_method (c : Config) :
    subjectArrayInitialisation c "SQL" =
      .ok ((subjectNamePairs c).map (fun p =>
        ⟨c.path, p.2, p.1,
          "sqlite:///" ++ c.path ++ "/Data/" ++ c.experimentName ++ ".db", "SQL", []⟩)) ∧
    subjectArrayInitialisation c "CSV" =
      .ok ((subjectNamePairs c).map (fun p =>
        ⟨c.path, p.2, p.1, c.path ++ "/Data/csv_files", "CSV", []⟩)) := by
  constructor <;> rfl

/- ### C8: unknown reading method raises -/

/-- C8: for every reading method other than SQL and CSV, if the configuration
lists at least one subject, subjectArrayInitialisation raises (the local
variable database is never assigned before the first Subject construction);
there is no fallback data source. -/
theorem unknown_reading_method_raises (c : Config) (rm : String)
    (h1 : rm ≠ "SQL") (h2 : rm ≠ "CSV") (h3 : subjectNamePairs c ≠ []) :
    subjectArrayInitialisation c rm = .error "NameError: name database is not defined" := by
  simp [subjectArrayInitialisation, h1, h2, h3]

theorem unknown_reading_method_raises_witness :
    ("XLS" : String) ≠ "SQL" ∧ ("XLS" : String) ≠ "CSV" ∧
    subjectNamePairs ⟨"p", "e", [("grp", [("s1", [])])], [], [], [], 0, 0⟩ ≠ [] ∧
    subjectArrayInitialisation ⟨"p", "e", [("grp", [("s1", [])])], [], [], [], 0, 0⟩ "XLS" =
      .error "NameError: name database is not defined" :=
  ⟨by decide, by decide, by decide,
    unknown_reading_method_raises _ _ (by decide) (by decide) (by decide)⟩

/- ### C9: getMetaData stimulus search stays in the first category -/

/-- C9: the category search of getMetaData cannot skip past a category that
does not contain the stimulus: list.index raises when the stimulus is absent,
so with at least one category the call raises whenever the stimulus is not in
the first category examined, and a successful search always returns the first
category (the stim_ind guard against -1 never fails). -/
theorem stim_search_first_category_only (stim cat : String) (names : List String)
    (rest : List (String × List String)) :
    (hasStr stim names = false →
      stimSearch ((cat, names) :: rest) stim = .error "ValueError") ∧
    (∀ r, stimSearch ((cat, names) :: rest) stim = .ok r →
      r.1 = cat ∧ r.2 = (idxOf stim names : Int) ∧ hasStr stim names = true) := by
  constructor
  · intro h
    simp [stimSearch, stimSearchLoop, listIndex, h]
  · intro r hr
    rcases h : hasStr stim names with _ | _
    · rw [stimSearch, stimSearchLoop, listIndex, h] at hr
      simp at hr
    · rw [stimSearch, stimSearchLoop, listIndex, h] at hr
      simp only [if_true] at hr
      rw [if_pos (natCast_ne_negOne (idxOf stim names))] at hr
      injection hr with hr
      rw [← hr]
      exact ⟨rfl, rfl, rfl⟩

theorem stim_search_first_category_only_witness :
    (hasStr "s3" ["s1", "s2"] = false →
      stimSearch [("catA", ["s1", "s2"]), ("catB", ["s3"])] "s3" = .error "ValueError") ∧
    stimSearch [("catA", ["s1", "s2"]), ("catB", ["s3"])] "s3" = .error "ValueError" ∧
    (("catA", (1 : Int)).1 = "catA" ∧ ("catA", (1 : Int)).2 = (idxOf "s2" ["s1", "s2"] : Int) ∧
      hasStr "s2" ["s1", "s2"] = true) :=
  ⟨(stim_search_first_category_only "s3" "catA" ["s1", "s2"] [("catB", ["s3"])]).1,
   (stim_search_first_category_only "s3" "catA" ["s1", "s2"] [("catB", ["s3"])]).1 (by decide),
   (stim_search_first_category_only "s2" "catA" ["s1", "s2"] [("catB", ["s3"])]).2
     ("catA", (1 : Int)) rfl⟩

/- ### C7: columns of interest concatenation -/

/-- Accumulator characterisation of the columnsArrayInitialisation loop. -/
lemma columnsGo_eq (c : Config) :
    ∀ (classes : List String) (acc : List String),
      (∀ cls ∈ classes, (dlookup cls c.columnsOfInterest).isSome = true) →
      columnsGo c acc classes =
        .ok (acc ++ catMap (fun cls => (dlookup cls c.columnsOfInterest).getD []) classes) := by
  intro classes
  induction classes with
  | nil => intro acc _; simp [columnsGo, catMap]
  | cons cls rest ih =>
    intro acc h
    have h1 : (dlookup cls c.columnsOfInterest).isSome = true := h cls (by simp)
    obtain ⟨cols, hc⟩ := Option.isSome_iff_exists.mp h1
    rw [columnsGo, hc]
    show columnsGo c (acc ++ cols) rest = _
    rw [ih (acc ++ cols) (fun x hx => h x (by simp [hx]))]
    simp [catMap, hc]

/-- C7: columnsArrayInitialisation returns, for each sensor in order and then
for the class Extra, the column names listed under Columns_of_interest for
that class in the JSON file, concatenated in their listed order. -/
theorem columns_of_interest_concatenation (c : Config) (sensors : List String)
    (h : ∀ cls ∈ sensors ++ ["Extra"], (dlookup cls c.columnsOfInterest).isSome = true) :
    columnsArrayInitialisation c sensors =
      .ok (catMap (fun cls => (dlookup cls c.columnsOfInterest).getD [])
        (sensors ++ ["Extra"])) := by
  unfold columnsArrayInitialisation
  rw [columnsGo_eq c _ [] h]
  simp

theorem columns_of_interest_concatenation_witness :
    (∀ cls ∈ (["EyeTracker"] ++ ["Extra"] : List String),
      (dlookup cls (Config.columnsOfInterest
        ⟨"p", "e", [], [], [], [("EyeTracker", ["GazeX", "GazeY"]), ("Extra", ["Time"])],
          0, 0⟩)).isSome = true) ∧
    columnsArrayInitialisation
        ⟨"p", "e", [], [], [], [("EyeTracker", ["GazeX", "GazeY"]), ("Extra", ["Time"])], 0, 0⟩
        ["EyeTracker"] =
      .ok (catMap (fun cls => (dlookup cls (Config.columnsOfInterest
        ⟨"p", "e", [], [], [], [("EyeTracker", ["GazeX", "GazeY"]), ("Extra", ["Time"])],
          0, 0⟩)).getD []) (["EyeTracker"] ++ ["Extra"])) :=
  ⟨by decide, columns_of_interest_concatenation _ _ (by decide)⟩

/- ### Lemmas about nth, set and matrix shapes -/

/-- nth only finds members of the list. -/
lemma nth_mem {α : Type} : ∀ {l : List α} {i : Nat} {x : α}, nth l i = some x → x ∈ l := by
  intro l
  induction l with
  | nil => intro i x h; cases i <;> simp [nth] at h
  | cons y ys ih =>
    intro i x h
    cases i with
    | zero =>
      rw [nth] at h
      injection h with h
      simp [h]
    | succ n => exact List.mem_cons_of_mem _ (ih h)

/-- An element of a list with one position overwritten is an old element or the
written value. -/
lemma mem_set_or {α : Type} {x a : α} :
    ∀ {l : List α} {i : Nat}, x ∈ l.set i a → x ∈ l ∨ x = a := by
  intro l
  induction l with
  | nil => intro i h; simp [List.set] at h
  | cons y ys ih =>
    intro i h
    cases i with
    | zero =>
      rw [List.set] at h
      rcases List.mem_cons.mp h with h | h
      · right; exact h
      · left; exact List.mem_cons_of_mem _ h
    | succ n =>
      rw [List.set] at h
      rcases List.mem_cons.mp h with h | h
      · left; simp [h]
      · rcases ih h with h | h
        · left; exact List.mem_cons_of_mem _ h
        · right; exact h

/-- A fresh (n, m) object array has shape (n, m). -/
lemma shapeOK_mkMatrix (n m : Nat) : shapeOK n m (mkMatrix n m) := by
  constructor
  · simp [mkMatrix]
  · intro row hr
    rw [List.eq_of_mem_replicate hr]
    simp

/-- A successful cell assignment preserves the matrix shape. -/
lemma shapeOK_setCell {n m : Nat} {M M2 : Matrix2D} {i j : Nat} {v : Cell}
    (h : shapeOK n m M) (hs : setCell M i j v = .ok M2) : shapeOK n m M2 := by
  unfold setCell at hs
  split at hs
  · exact absurd hs (by simp)
  · rename_i row hrow
    split at hs
    · exact absurd hs (by simp)
    · injection hs with hs
      constructor
      · rw [← hs, List.length_set]; exact h.1
      · intro r hr
        rw [← hs] at hr
        rcases mem_set_or hr with h1 | h1
        · exact h.2 r h1
        · rw [h1, List.length_set]
          exact h.2 row (nth_mem hrow)

/-- The inner initialisation loop keeps every matrix in the dict of shape (n, m). -/
lemma dictShapes_initCols (n m : Nat) :
    ∀ (cols : List String) (d : List (String × Matrix2D)),
      (∀ p ∈ d, shapeOK n m p.2) → ∀ p ∈ initCols n m d cols, shapeOK n m p.2 := by
  intro cols
  induction cols with
  | nil => intro d h; exact h
  | cons mc rest ih =>
    intro d h
    simp only [initCols]
    exact ih _ (dinsert_values_prop mc _ d h (shapeOK_mkMatrix n m))

/-- The initialisation phase keeps every matrix in the dict of shape (n, m). -/
lemma dictShapes_initIndicators (n m : Nat) :
    ∀ (metaCols : List (String × List String)) (d : List (String × Matrix2D)),
      (∀ p ∈ d, shapeOK n m p.2) → ∀ p ∈ initIndicators n m d metaCols, shapeOK n m p.2 := by
  intro metaCols
  induction metaCols with
  | nil => intro d h; exact h
  | cons g rest ih =>
    intro d h
    obtain ⟨s, cols⟩ := g
    simp only [initIndicators]
    exact ih _ (dictShapes_initCols n m cols d h)

/-- The innermost fill loop preserves the shapes of all matrices. -/
lemma dictShapes_fillMetas {n m : Nat} (si sti : Nat) :
    ∀ (metas : List (String × Cell)) (d d2 : List (String × Matrix2D)),
      (∀ p ∈ d, shapeOK n m p.2) → fillMetas si sti d metas = .ok d2 →
      ∀ p ∈ d2, shapeOK n m p.2 := by
  intro metas
  induction metas with
  | nil =>
    intro d d2 h hf
    rw [fillMetas] at hf
    injection hf with hf
    rw [← hf]
    exact h
  | cons mv rest ih =>
    intro d d2 h hf
    obtain ⟨meta, v⟩ := mv
    rw [fillMetas] at hf
    split at hf
    · exact absurd hf (by simp)
    · rename_i M hl
      split at hf
      · exact absurd hf (by simp)
      · rename_i M2 hsc
        have hM : shapeOK n m M := dlookup_prop h hl
        have hM2 : shapeOK n m M2 := shapeOK_setCell hM hsc
        exact ih _ _ (dinsert_values_prop _ _ _ h hM2) hf

/-- The middle fill loop preserves the shapes of all matrices. -/
lemma dictShapes_fillStims {n m : Nat} (si : Nat) :
    ∀ (l : List (String × List (String × Cell))) (sti : Nat)
      (d d2 : List (String × Matrix2D)),
      (∀ p ∈ d, shapeOK n m p.2) → fillStims si sti d l = .ok d2 →
      ∀ p ∈ d2, shapeOK n m p.2 := by
  intro l
  induction l with
  | nil =>
    intro sti d d2 h hf
    rw [fillStims] at hf
    injection hf with hf
    rw [← hf]
    exact h
  | cons x rest ih =>
    intro sti d d2 h hf
    obtain ⟨st, metas⟩ := x
    rw [fillStims] at hf
    split at hf
    · exact absurd hf (by simp)
    · rename_i d3 hm
      exact ih _ _ _ (dictShapes_fillMetas si sti metas d d3 h hm) hf

/-- The outer fill loop preserves the shapes of all matrices. -/
lemma dictShapes_fillSubjects {n m : Nat} :
    ∀ (subs : List Subject) (si : Nat) (mm mm2 : List String × List (String × Matrix2D)),
      (∀ p ∈ mm.2, shapeOK n m p.2) → fillSubjects si mm subs = .ok mm2 →
      ∀ p ∈ mm2.2, shapeOK n m p.2 := by
  intro subs
  induction subs with
  | nil =>
    intro si mm mm2 h hf
    rw [fillSubjects] at hf
    injection hf with hf
    rw [← hf]
    exact h
  | cons sub rest ih =>
    intro si mm mm2 h hf
    rw [fillSubjects] at hf
    split at hf
    · exact absurd hf (by simp)
    · rename_i d2 hs
      exact ih _ _ _ (dictShapes_fillStims si sub.aggregate_meta 0 mm.2 d2 h hs) hf

/- ### C1: shape invariant of the indicator matrix -/

/-- C1: after metaMatrixInitialisation has run on a freshly constructed
Experiment, every indicator name of meta_matrix_dict component 1 maps to a 2D
array whose first axis has length len(subjects) and whose second axis has
length len(stimuli), the number of stimulus categories declared in the
configuration Stimuli mapping. -/
theorem meta_matrix_shape_invariant (metaCols : List (String × List String))
    (subs : List Subject) (stims : List (String × List String))
    (out : List String × List (String × Matrix2D))
    (h : metaMatrixInitialisation metaCols subs stims (initMetaMatrixDict subs) = .ok out) :
    ∀ p ∈ out.2, p.2.length = subs.length ∧ ∀ row ∈ p.2, row.length = stims.length := by
  have base : ∀ p ∈ (initMetaMatrixDict subs).2, shapeOK subs.length stims.length p.2 := by
    intro p hp
    simp [initMetaMatrixDict] at hp
  have hinit := dictShapes_initIndicators subs.length stims.length metaCols
    (initMetaMatrixDict subs).2 base
  unfold metaMatrixInitialisation at h
  exact dictShapes_fillSubjects subs 0 _ out hinit h

theorem meta_matrix_shape_invariant_witness :
    metaMatrixInitialisation [("EyeTracker", ["blink_rate", "fixation_count"])]
        [⟨"p", "s1", "grp", "db", "SQL", [("t1", [("blink_rate", some [1, 2])])]⟩]
        [("t1", ["imgA"]), ("t2", ["imgB"])]
        (initMetaMatrixDict
          [⟨"p", "s1", "grp", "db", "SQL", [("t1", [("blink_rate", some [1, 2])])]⟩]) =
      .ok (["grp"],
        [("blink_rate", [[some [1, 2], none]]), ("fixation_count", [[none, none]])]) ∧
    ∀ p ∈ ((["grp"],
        [("blink_rate", [[some [1, 2], none]]), ("fixation_count", [[none, none]])]) :
          List String × List (String × Matrix2D)).2,
      p.2.length = 1 ∧ ∀ row ∈ p.2, row.length = 2 :=
  ⟨rfl,
   meta_matrix_shape_invariant [("EyeTracker", ["blink_rate", "fixation_count"])]
     [⟨"p", "s1", "grp", "db", "SQL", [("t1", [("blink_rate", some [1, 2])])]⟩]
     [("t1", ["imgA"]), ("t2", ["imgB"])]
     (["grp"], [("blink_rate", [[some [1, 2], none]]), ("fixation_count", [[none, none]])])
     rfl⟩

/- ### Key presence lemmas for C6 -/

/-- The inner initialisation loop keeps every present key present. -/
lemma keyPresent_initCols_pres (n m : Nat) (k : String) :
    ∀ (cols : List String) (d : List (String × Matrix2D)),
      (dlookup k d).isSome = true → (dlookup k (initCols n m d cols)).isSome = true := by
  intro cols
  induction cols with
  | nil => intro d h; exact h
  | cons mc rest ih =>
    intro d h
    simp only [initCols]
    exact ih _ (isSome_dlookup_dinsert k mc _ d h)

/-- The inner initialisation loop creates an entry for every listed meta column. -/
lemma keyPresent_initCols_mem (n m : Nat) (mc : String) :
    ∀ (cols : List String) (d : List (String × Matrix2D)), mc ∈ cols →
      (dlookup mc (initCols n m d cols)).isSome = true := by
  intro cols
  induction cols with
  | nil => intro d h; simp at h
  | cons c2 rest ih =>
    intro d h
    rcases List.mem_cons.mp h with h | h
    · subst h
      simp only [initCols]
      exact keyPresent_initCols_pres n m mc rest _
        (by rw [dlookup_dinsert_self]; rfl)
    · simp only [initCols]
      exact ih _ h

/-- The initialisation phase keeps every present key present. -/
lemma keyPresent_initIndicators_pres (n m : Nat) (k : String) :
    ∀ (metaCols : List (String × List String)) (d : List (String × Matrix2D)),
      (dlookup k d).isSome = true →
      (dlookup k (initIndicators n m d metaCols)).isSome = true := by
  intro metaCols
  induction metaCols with
  | nil => intro d h; exact h
  | cons g rest ih =>
    intro d h
    obtain ⟨s, cols⟩ := g
    simp only [initIndicators]
    exact ih _ (keyPresent_initCols_pres n m k cols d h)

/-- The initialisation phase creates an entry for every meta column of every
sensor type of Sensor.meta_cols. -/
lemma keyPresent_initIndicators_mem (n m : Nat) (mc : String) :
    ∀ (metaCols : List (String × List String)) (d : List (String × Matrix2D))
      (g : String × List String), g ∈ metaCols → mc ∈ g.2 →
      (dlookup mc (initIndicators n m d metaCols)).isSome = true := by
  intro metaCols
  induction metaCols with
  | nil => intro d g h; simp at h
  | cons g2 rest ih =>
    intro d g hg hmc
    obtain ⟨s, cols⟩ := g2
    simp only [initIndicators]
    rcases List.mem_cons.mp hg with h | h
    · subst h
      exact keyPresent_initIndicators_pres n m mc rest _
        (keyPresent_initCols_mem n m mc cols d hmc)
    · exact ih _ g h hmc

/-- The innermost fill loop keeps every present key present. -/
lemma keyPresent_fillMetas (si sti : Nat) (k : String) :
    ∀ (metas : List (String × Cell)) (d d2 : List (String × Matrix2D)),
      (dlookup k d).isSome = true → fillMetas si sti d metas = .ok d2 →
      (dlookup k d2).isSome = true := by
  intro metas
  induction metas with
  | nil =>
    intro d d2 h hf
    rw [fillMetas] at hf
    injection hf with hf
    rw [← hf]
    exact h
  | cons mv rest ih =>
    intro d d2 h hf
    obtain ⟨meta, v⟩ := mv
    rw [fillMetas] at hf
    split at hf
    · exact absurd hf (by simp)
    · rename_i M hl
      split at hf
      · exact absurd hf (by simp)
      · rename_i M2 hsc
        exact ih _ _ (isSome_dlookup_dinsert k meta M2 d h) hf

/-- The middle fill loop keeps every present key present. -/
lemma keyPresent_fillStims (si : Nat) (k : String) :
    ∀ (l : List (String × List (String × Cell))) (sti : Nat)
      (d d2 : List (String × Matrix2D)),
      (dlookup k d).isSome = true → fillStims si sti d l = .ok d2 →
      (dlookup k d2).isSome = true := by
  intro l
  induction l with
  | nil =>
    intro sti d d2 h hf
    rw [fillStims] at hf
    injection hf with hf
    rw [← hf]
    exact h
  | cons x rest ih =>
    intro sti d d2 h hf
    obtain ⟨st, metas⟩ := x
    rw [fillStims] at hf
    split at hf
    · exact absurd hf (by simp)
    · rename_i d3 hm
      exact ih _ _ _ (keyPresent_fillMetas si sti k metas d d3 h hm) hf

/-- The outer fill loop keeps every present key present. -/
lemma keyPresent_fillSubjects (k : String) :
    ∀ (subs : List Subject) (si : Nat) (mm mm2 : List String × List (String × Matrix2D)),
      (dlookup k mm.2).isSome = true → fillSubjects si mm subs = .ok mm2 →
      (dlookup k mm2.2).isSome = true := by
  intro subs
  induction subs with
  | nil =>
    intro si mm mm2 h hf
    rw [fillSubjects] at hf
    injection hf with hf
    rw [← hf]
    exact h
  | cons sub rest ih =>
    intro si mm mm2 h hf
    rw [fillSubjects] at hf
    split at hf
    · exact absurd hf (by simp)
    · rename_i d2 hs
      exact ih _ _ _ (keyPresent_fillStims si k sub.aggregate_meta 0 mm.2 d2 h hs) hf

/- ### C6: lazy construction of the indicator matrix -/

/-- C6: immediately after Experiment construction, the indicator mapping of
meta_matrix_dict contains no entries; indicator entries are created and filled
only when metaMatrixInitialisation is invoked, which creates an entry for
every meta column of Sensor.meta_cols. -/
theorem meta_matrix_lazy (c : Config) (rm : String) (sensors : List String)
    (aoi : AoiArg) (drawResult : Int × Int × Int × Int) (e : Experiment)
    (h : experimentInit c rm sensors aoi drawResult = .ok e) :
    e.meta_matrix_dict.2 = [] ∧
    ∀ (metaCols : List (String × List String)) (subs2 : List Subject)
      (out : List String × List (String × Matrix2D)),
      metaMatrixInitialisation metaCols subs2 e.stimuli e.meta_matrix_dict = .ok out →
      ∀ g ∈ metaCols, ∀ mc ∈ g.2, (dlookup mc out.2).isSome = true := by
  have hdict : e.meta_matrix_dict.2 = [] := by
    unfold experimentInit at h
    split at h
    · exact absurd h (by simp)
    · split at h
      · exact absurd h (by simp)
      · injection h with h
        rw [← h]
        rfl
  refine ⟨hdict, ?_⟩
  intro metaCols subs2 out hmm g hg mc hmc
  unfold metaMatrixInitialisation at hmm
  refine keyPresent_fillSubjects mc subs2 0 _ out ?_ hmm
  exact keyPresent_initIndicators_mem subs2.length e.stimuli.length mc metaCols
    e.meta_matrix_dict.2 g hg hmc

theorem meta_matrix_lazy_witness :
    experimentInit
        ⟨"p", "e", [("grp", [("s1", [])])], [("t1", ["imgA"])], [],
          [("EyeTracker", ["GazeX"]), ("Extra", [])], 100, 100⟩
        "SQL" ["EyeTracker"] (.str "NA") (0, 0, 0, 0) =
      .ok ⟨"p", "e", ["EyeTracker"], (0, 0, 100, 100), ["GazeX"], [("t1", ["imgA"])],
        [⟨"p", "s1", "grp", "sqlite:///p/Data/e.db", "SQL", []⟩], ([""], [])⟩ ∧
    ((([""], []) : List String × List (String × Matrix2D)).2 = [] ∧
      ∀ (metaCols : List (String × List String)) (subs2 : List Subject)
        (out : List String × List (String × Matrix2D)),
        metaMatrixInitialisation metaCols subs2 [("t1", ["imgA"])] ([""], []) = .ok out →
        ∀ g ∈ metaCols, ∀ mc ∈ g.2, (dlookup mc out.2).isSome = true) :=
  ⟨rfl,
   meta_matrix_lazy
     ⟨"p", "e", [("grp", [("s1", [])])], [("t1", ["imgA"])], [],
       [("EyeTracker", ["GazeX"]), ("Extra", [])], 100, 100⟩
     "SQL" ["EyeTracker"] (.str "NA") (0, 0, 0, 0)
     ⟨"p", "e", ["EyeTracker"], (0, 0, 100, 100), ["GazeX"], [("t1", ["imgA"])],
       [⟨"p", "s1", "grp", "sqlite:///p/Data/e.db", "SQL", []⟩], ([""], [])⟩
     rfl⟩

/- ### Lemmas about the analyse loops -/

/-- A successful Except value is ok of its carried cell. -/
lemma exOk_eq_ok {e : Except String Cell} (h : exOk e = true) : e = .ok (exCell e) := by
  cases e with
  | error msg => simp [exOk] at h
  | ok cell => rfl

/-- A successful cell read with a proper value array carries some of its values. -/
lemma cellSome_exCell {e : Except String Cell} (h : cellSome e = true) :
    exCell e = some (cellValues e) := by
  cases e with
  | error msg => simp [cellSome] at h
  | ok cell =>
    cases cell with
    | none => simp [cellSome] at h
    | some vs => rfl

/-- A cell read with a proper value array is in particular successful. -/
lemma cellSome_exOk {e : Except String Cell} (h : cellSome e = true) : exOk e = true := by
  cases e with
  | error msg => simp [cellSome] at h
  | ok cell => rfl

/-- One unfolding step of the stimulus-type loop when the cell read succeeds. -/
lemma stimLoop_cons (c : Config) (mm : List (String × Matrix2D)) (meta : String) (ncols : Nat)
    (betw within : List String) (si : Nat) (sub : Subject) (sti : Nat) (stimType : String)
    (metas : List (String × Cell)) (rest : List (String × List (String × Cell))) (cell : Cell)
    (hg : getCell mm meta si sti = .ok cell) :
    stimLoop c mm meta ncols betw within si sub sti ((stimType, metas) :: rest) =
      (match stimLoop c mm meta ncols betw within si sub (sti + 1) rest with
       | .error msg => .error msg
       | .ok r2 =>
         .ok ((processCell ncols c betw within sub stimType sti cell).1 ++ r2.1,
              (processCell ncols c betw within sub stimType sti cell).2 ++ r2.2)) := by
  rw [stimLoop, hg]

/-- Compositional characterisation of the stimulus-type loop when every cell
read of this subject succeeds. -/
lemma stimLoop_ok (c : Config) (mm : List (String × Matrix2D)) (meta : String) (ncols : Nat)
    (betw within : List String) (si : Nat) (sub : Subject) :
    ∀ (l : List (String × List (String × Cell))) (sti : Nat),
      (∀ q ∈ enumF sti l, exOk (getCell mm meta si q.1) = true) →
      stimLoop c mm meta ncols betw within si sub sti l =
        .ok (catMap (fun q =>
              (processCell ncols c betw within sub q.2.1 q.1
                (exCell (getCell mm meta si q.1))).1) (enumF sti l),
             catMap (fun q =>
              (processCell ncols c betw within sub q.2.1 q.1
                (exCell (getCell mm meta si q.1))).2) (enumF sti l)) := by
  intro l
  induction l with
  | nil => intro sti _; rfl
  | cons x rest ih =>
    intro sti h
    obtain ⟨stimType, metas⟩ := x
    have h1 : exOk (getCell mm meta si sti) = true :=
      h (sti, (stimType, metas)) (by rw [enumF]; simp)
    rw [stimLoop_cons c mm meta ncols betw within si sub sti stimType metas rest
          (exCell (getCell mm meta si sti)) (exOk_eq_ok h1),
        ih (sti + 1) (fun q hq => h q (by rw [enumF]; exact List.mem_cons_of_mem _ hq))]
    simp only [enumF, catMap]

/-- One unfolding step of the subject loop when the stimulus loop succeeds. -/
lemma subLoop_cons (c : Config) (mm : List (String × Matrix2D)) (meta : String) (ncols : Nat)
    (betw within : List String) (si : Nat) (sub : Subject) (rest : List Subject)
    (r : List (List Val) × List String)
    (hs : stimLoop c mm meta ncols betw within si sub 0 sub.aggregate_meta = .ok r) :
    subLoop c mm meta ncols betw within si (sub :: rest) =
      (match subLoop c mm meta ncols betw within (si + 1) rest with
       | .error msg => .error msg
       | .ok r2 => .ok (r.1 ++ r2.1, r.2 ++ r2.2)) := by
  rw [subLoop, hs]

/-- Compositional characterisation of the subject loop when every cell read
succeeds. -/
lemma subLoop_ok (c : Config) (mm : List (String × Matrix2D)) (meta : String) (ncols : Nat)
    (betw within : List String) :
    ∀ (subs : List Subject) (si : Nat),
      (∀ p ∈ enumF si subs, ∀ q ∈ enumF 0 p.2.aggregate_meta,
        exOk (getCell mm meta p.1 q.1) = true) →
      subLoop c mm meta ncols betw within si subs =
        .ok (catMap (fun p => catMap (fun q =>
              (processCell ncols c betw within p.2 q.2.1 q.1
                (exCell (getCell mm meta p.1 q.1))).1) (enumF 0 p.2.aggregate_meta))
              (enumF si subs),
             catMap (fun p => catMap (fun q =>
              (processCell ncols c betw within p.2 q.2.1 q.1
                (exCell (getCell mm meta p.1 q.1))).2) (enumF 0 p.2.aggregate_meta))
              (enumF si subs)) := by
  intro subs
  induction subs with
  | nil => intro si _; rfl
  | cons sub rest ih =>
    intro si h
    have hstim := stimLoop_ok c mm meta ncols betw within si sub sub.aggregate_meta 0
      (h (si, sub) (by rw [enumF]; simp))
    rw [subLoop_cons c mm meta ncols betw within si sub rest _ hstim,
        ih (si + 1) (fun p hp => h p (by rw [enumF]; exact List.mem_cons_of_mem _ hp))]
    simp only [enumF, catMap]

/-- Compositional characterisation of the per-indicator dataframe assembly
when every cell read succeeds: it never raises, and each cell of the indicator
matrix contributes its rows and messages independently of the other cells. -/
lemma buildData_ok (c : Config) (mm : List (String × Matrix2D)) (meta : String)
    (betw within : List String) (subs : List Subject)
    (hc : ∀ p ∈ enumF 0 subs, ∀ q ∈ enumF 0 p.2.aggregate_meta,
      exOk (getCell mm meta p.1 q.1) = true) :
    buildData c mm meta betw within subs =
      .ok (⟨meta :: (betw ++ (within ++ ["subject"])),
            catMap (fun p => catMap (fun q =>
              (processCell (meta :: (betw ++ (within ++ ["subject"]))).length c betw within
                p.2 q.2.1 q.1 (exCell (getCell mm meta p.1 q.1))).1)
              (enumF 0 p.2.aggregate_meta)) (enumF 0 subs)⟩,
           catMap (fun p => catMap (fun q =>
              (processCell (meta :: (betw ++ (within ++ ["subject"]))).length c betw within
                p.2 q.2.1 q.1 (exCell (getCell mm meta p.1 q.1))).2)
              (enumF 0 p.2.aggregate_meta)) (enumF 0 subs)) := by
  unfold buildData
  rw [subLoop_ok c mm meta _ betw within subs 0 hc]

/-- The columns of a successfully assembled per-indicator dataframe. -/
lemma buildData_columns {c : Config} {mm : List (String × Matrix2D)} {meta : String}
    {betw within : List String} {subjects : List Subject} {r : DataFrame × List String}
    (h : buildData c mm meta betw within subjects = .ok r) :
    r.1.columns = meta :: (betw ++ (within ++ ["subject"])) := by
  unfold buildData at h
  split at h
  · exact absurd h (by simp)
  · injection h with h
    rw [← h]

/-- Columns of every dataframe produced by the analyseAll loop. -/
lemma analyseAll_columns (c : Config) (mm : List (String × Matrix2D))
    (betw within : List String) (subs : List Subject) :
    ∀ (metas : List String) (results : List (String × DataFrame × List String)),
      analyseAll c mm betw within subs metas = .ok results →
      ∀ r ∈ results, r.2.1.columns = r.1 :: (betw ++ (within ++ ["subject"])) := by
  intro metas
  induction metas with
  | nil =>
    intro results h r hr
    rw [analyseAll] at h
    injection h with h
    rw [← h] at hr
    simp at hr
  | cons meta rest ih =>
    intro results h r hr
    rw [analyseAll] at h
    split at h
    · exact absurd h (by simp)
    · rename_i rr hb
      split at h
      · exact absurd h (by simp)
      · rename_i others ha
        injection h with h
        rw [← h] at hr
        rcases List.mem_cons.mp hr with h1 | h1
        · rw [h1]
          exact buildData_columns hb
        · exact ih others ha r h1

/- ### C3: dataframe columns -/

/-- C3: every dataframe assembled by analyse for an indicator has exactly the
columns indicator name, then the between factors, then the within factors,
then subject, in that order. -/
theorem analyse_dataframe_columns (c : Config) (mm : List (String × Matrix2D))
    (sensors : List String) (metaCols : List (String × List String))
    (parameterList betw within : List String) (subs : List Subject)
    (results : List (String × DataFrame × List String))
    (h : analyse c mm sensors metaCols parameterList betw within subs = .ok results) :
    ∀ r ∈ results, r.2.1.columns = r.1 :: (betw ++ (within ++ ["subject"])) := by
  unfold analyse at h
  split at h
  · exact absurd h (by simp)
  · exact analyseAll_columns c mm betw within subs _ results h

theorem analyse_dataframe_columns_witness :
    analyse
        ⟨"p", "e", [("grp", [("s1", [("Gender", "M")])])], [("t1", ["imgA"])],
          [("t1", [("imgA", [("Difficulty", "easy")])])], [("EyeTracker", ["GazeAOI"])],
          100, 100⟩
        [("blink_rate", [[some [3, 4]]])] ["EyeTracker"] [("EyeTracker", ["blink_rate"])]
        ["all"] ["Subject_type"] ["Stimuli_type"]
        [⟨"p", "s1", "grp", "db", "SQL", [("t1", [("blink_rate", some [3, 4])])]⟩] =
      .ok [("blink_rate",
        ⟨["blink_rate", "Subject_type", "Stimuli_type", "subject"],
          [[Val.num 3, Val.str "grp", Val.str "t1", Val.str "s1"],
           [Val.num 4, Val.str "grp", Val.str "t1", Val.str "s1"]]⟩, [])] ∧
    ∀ r ∈ ([("blink_rate",
        (⟨["blink_rate", "Subject_type", "Stimuli_type", "subject"],
          [[Val.num 3, Val.str "grp", Val.str "t1", Val.str "s1"],
           [Val.num 4, Val.str "grp", Val.str "t1", Val.str "s1"]]⟩ : DataFrame),
        ([] : List String))] : List (String × DataFrame × List String)),
      r.2.1.columns = r.1 :: (["Subject_type"] ++ (["Stimuli_type"] ++ ["subject"])) :=
  ⟨rfl,
   analyse_dataframe_columns
     ⟨"p", "e", [("grp", [("s1", [("Gender", "M")])])], [("t1", ["imgA"])],
       [("t1", [("imgA", [("Difficulty", "easy")])])], [("EyeTracker", ["GazeAOI"])],
       100, 100⟩
     [("blink_rate", [[some [3, 4]]])] ["EyeTracker"] [("EyeTracker", ["blink_rate"])]
     ["all"] ["Subject_type"] ["Stimuli_type"]
     [⟨"p", "s1", "grp", "db", "SQL", [("t1", [("blink_rate", some [3, 4])])]⟩]
     [("blink_rate",
       ⟨["blink_rate", "Subject_type", "Stimuli_type", "subject"],
         [[Val.num 3, Val.str "grp", Val.str "t1", Val.str "s1"],
          [Val.num 4, Val.str "grp", Val.str "t1", Val.str "s1"]]⟩, [])]
     rfl⟩

/- ### C4: error containment in the dataframe assembly -/

/-- C4: when analyse meets a between or within factor missing from the JSON
configuration, or a value array that cannot be iterated over, the error is
turned into a printed message: as long as the indicator-matrix reads
themselves succeed, the per-indicator assembly never raises, and every cell
still contributes its rows independently of errors in other cells. -/
theorem analyse_error_containment (c : Config) (mm : List (String × Matrix2D)) (meta : String)
    (betw within : List String) (subs : List Subject)
    (hc : ∀ p ∈ enumF 0 subs, ∀ q ∈ enumF 0 p.2.aggregate_meta,
      exOk (getCell mm meta p.1 q.1) = true) :
    ∃ df log, buildData c mm meta betw within subs = .ok (df, log) ∧
      df.rows = catMap (fun p => catMap (fun q =>
        (processCell (meta :: (betw ++ (within ++ ["subject"]))).length c betw within
          p.2 q.2.1 q.1 (exCell (getCell mm meta p.1 q.1))).1)
        (enumF 0 p.2.aggregate_meta)) (enumF 0 subs) :=
  ⟨_, _, buildData_ok c mm meta betw within subs hc, rfl⟩

theorem analyse_error_containment_witness :
    (∀ p ∈ enumF 0
        [(⟨"p", "s1", "grp", "db", "SQL", [("t1", [("blink_rate", some [3])])]⟩ : Subject),
         ⟨"p", "s2", "grp", "db", "SQL", [("t1", [("blink_rate", some [5])])]⟩],
      ∀ q ∈ enumF 0 p.2.aggregate_meta,
        exOk (getCell [("blink_rate", [[none], [some [5]]])] "blink_rate" p.1 q.1) = true) ∧
    ∃ df log,
      buildData
          ⟨"p", "e", [("grp", [("s1", []), ("s2", [("Gender", "F")])])], [("t1", ["imgA"])],
            [], [("EyeTracker", [])], 100, 100⟩
          [("blink_rate", [[none], [some [5]]])] "blink_rate"
          ["Subject_type", "Gender"] ["Stimuli_type"]
          [⟨"p", "s1", "grp", "db", "SQL", [("t1", [("blink_rate", some [3])])]⟩,
           ⟨"p", "s2", "grp", "db", "SQL", [("t1", [("blink_rate", some [5])])]⟩] =
        .ok (df, log) ∧
      df.rows = catMap (fun p => catMap (fun q =>
        (processCell ("blink_rate" ::
            (["Subject_type", "Gender"] ++ (["Stimuli_type"] ++ ["subject"]))).length
          ⟨"p", "e", [("grp", [("s1", []), ("s2", [("Gender", "F")])])], [("t1", ["imgA"])],
            [], [("EyeTracker", [])], 100, 100⟩
          ["Subject_type", "Gender"] ["Stimuli_type"] p.2 q.2.1 q.1
          (exCell (getCell [("blink_rate", [[none], [some [5]]])] "blink_rate" p.1 q.1))).1)
        (enumF 0 p.2.aggregate_meta))
        (enumF 0
          [(⟨"p", "s1", "grp", "db", "SQL", [("t1", [("blink_rate", some [3])])]⟩ : Subject),
           ⟨"p", "s2", "grp", "db", "SQL", [("t1", [("blink_rate", some [5])])]⟩]) :=
  ⟨by decide,
   analyse_error_containment
     ⟨"p", "e", [("grp", [("s1", []), ("s2", [("Gender", "F")])])], [("t1", ["imgA"])],
       [], [("EyeTracker", [])], 100, 100⟩
     [("blink_rate", [[none], [some [5]]])] "blink_rate"
     ["Subject_type", "Gender"] ["Stimuli_type"]
     [⟨"p", "s1", "grp", "db", "SQL", [("t1", [("blink_rate", some [3])])]⟩,
      ⟨"p", "s2", "grp", "db", "SQL", [("t1", [("blink_rate", some [5])])]⟩]
     (by decide)⟩

/- ### Length lemmas for the clean path of the row builder -/

/-- When every extra between factor is defined, the between loop appends one
entry per factor other than Subject_type. -/
lemma betweenVals_length (c : Config) (t n : String) :
    ∀ (betw : List String),
      (∀ param ∈ betw, param ≠ "Subject_type" →
        (lookupBetween c t n param).isSome = true) →
      (betweenVals c t n betw).1.length + countOcc "Subject_type" betw = betw.length := by
  intro betw
  induction betw with
  | nil => intro _; rfl
  | cons param rest ih =>
    intro h
    have hrest := ih (fun q hq hne => h q (by simp [hq]) hne)
    by_cases hp : param = "Subject_type"
    · rw [betweenVals, if_pos hp, countOcc, if_pos hp]
      simp only [List.length_cons]
      omega
    · have hs : (lookupBetween c t n param).isSome = true := h param (by simp) hp
      obtain ⟨v, hv⟩ := Option.isSome_iff_exists.mp hs
      rw [betweenVals, if_neg hp, hv]
      show (Val.str v :: (betweenVals c t n rest).1).length +
        countOcc "Subject_type" (param :: rest) = (param :: rest).length
      rw [countOcc, if_neg hp]
      simp only [List.length_cons]
      omega

/-- When every extra within factor resolves, the within loop appends one entry
per factor other than Stimuli_type. -/
lemma withinVals_length (c : Config) (stimuliType : String) (stimuliIndex : Nat) :
    ∀ (within : List String),
      (∀ param ∈ within, param ≠ "Stimuli_type" →
        (lookupWithin c stimuliType stimuliIndex param).isSome = true) →
      (withinVals c stimuliType stimuliIndex within).1.length +
        countOcc "Stimuli_type" within = within.length := by
  intro within
  induction within with
  | nil => intro _; rfl
  | cons param rest ih =>
    intro h
    have hrest := ih (fun q hq hne => h q (by simp [hq]) hne)
    by_cases hp : param = "Stimuli_type"
    · rw [withinVals, if_pos hp, countOcc, if_pos hp]
      simp only [List.length_cons]
      omega
    · have hs : (lookupWithin c stimuliType stimuliIndex param).isSome = true :=
        h param (by simp) hp
      obtain ⟨v, hv⟩ := Option.isSome_iff_exists.mp hs
      rw [withinVals, if_neg hp, hv]
      show (Val.str v :: (withinVals c stimuliType stimuliIndex rest).1).length +
        countOcc "Stimuli_type" (param :: rest) = (param :: rest).length
      rw [countOcc, if_neg hp]
      simp only [List.length_cons]
      omega

/-- On the clean path, a built row has one entry per dataframe column exactly
when the skipped factors Subject_type and Stimuli_type account for their
dedicated row entries (the subject type and the stimulus type). -/
lemma buildRowFor_length (c : Config) (betw within : List String) (sub : Subject)
    (stimuliType : String) (stimuliIndex : Nat) (v : Int)
    (hb : ∀ param ∈ betw, param ≠ "Subject_type" →
      (lookupBetween c sub.subjType sub.name param).isSome = true)
    (hw : ∀ param ∈ within, param ≠ "Stimuli_type" →
      (lookupWithin c stimuliType stimuliIndex param).isSome = true)
    (hcount : countOcc "Subject_type" betw + countOcc "Stimuli_type" within = 2) :
    (buildRowFor c betw within sub stimuliType stimuliIndex v).1.length =
      betw.length + within.length + 2 := by
  have h1 := betweenVals_length c sub.subjType sub.name betw hb
  have h2 := withinVals_length c stimuliType stimuliIndex within hw
  simp only [buildRowFor, List.length_cons, List.length_append, List.length_singleton,
    List.length_nil]
  omega

/-- On the clean path, the value loop appends one row per value of the value
array. -/
lemma cellRows_map (ncols : Nat) (c : Config) (betw within : List String) (sub : Subject)
    (stimuliType : String) (stimuliIndex : Nat)
    (hlen : ∀ v : Int,
      (buildRowFor c betw within sub stimuliType stimuliIndex v).1.length = ncols) :
    ∀ vs : List Int,
      cellRows ncols c betw within sub stimuliType stimuliIndex vs =
        (vs.map (fun v => (buildRowFor c betw within sub stimuliType stimuliIndex v).1),
         catMap (fun v => (buildRowFor c betw within sub stimuliType stimuliIndex v).2) vs) := by
  intro vs
  induction vs with
  | nil => rfl
  | cons v rest ih =>
    rw [cellRows, if_pos (hlen v), ih]
    rfl

/- ### C2: row structure of the per-indicator dataframe -/

/-- C2: on the clean path (every extra factor defined, every cell of the
indicator matrix a proper value array, and the two implicit factors
Subject_type and Stimuli_type accounting for their dedicated row entries), the
dataframe for an indicator is built by iterating every subject and, per
subject, every stimulus type of aggregate_meta, appending one row per value of
the corresponding indicator-matrix cell; each row holds, in order, the value,
the subject type, the extra between-factor values, the stimulus type, the
extra within-factor values and the subject name. -/
theorem analyse_row_structure (c : Config) (mm : List (String × Matrix2D)) (meta : String)
    (betw within : List String) (subs : List Subject) (df : DataFrame) (log : List String)
    (hcount : countOcc "Subject_type" betw + countOcc "Stimuli_type" within = 2)
    (hb : ∀ sub ∈ subs, ∀ param ∈ betw, param ≠ "Subject_type" →
      (lookupBetween c sub.subjType sub.name param).isSome = true)
    (hw : ∀ sub ∈ subs, ∀ q ∈ enumF 0 sub.aggregate_meta, ∀ param ∈ within,
      param ≠ "Stimuli_type" → (lookupWithin c q.2.1 q.1 param).isSome = true)
    (hc : ∀ p ∈ enumF 0 subs, ∀ q ∈ enumF 0 p.2.aggregate_meta,
      cellSome (getCell mm meta p.1 q.1) = true)
    (h : buildData c mm meta betw within subs = .ok (df, log)) :
    df.rows = catMap (fun p => catMap (fun q =>
      (cellValues (getCell mm meta p.1 q.1)).map (fun v =>
        Val.num v :: Val.str p.2.subjType ::
          ((betweenVals c p.2.subjType p.2.name betw).1 ++
            Val.str q.2.1 :: ((withinVals c q.2.1 q.1 within).1 ++ [Val.str p.2.name]))))
      (enumF 0 p.2.aggregate_meta)) (enumF 0 subs) := by
  have hok := buildData_ok c mm meta betw within subs
    (fun p hp q hq => cellSome_exOk (hc p hp q hq))
  rw [hok] at h
  injection h with h
  rw [Prod.mk.injEq] at h
  obtain ⟨h1, h2⟩ := h
  rw [← h1]
  refine catMap_congr ?_
  intro p hp
  refine catMap_congr ?_
  intro q hq
  have hcs := hc p hp q hq
  rw [cellSome_exCell hcs]
  have hsub : p.2 ∈ subs := enumF_mem_snd subs 0 p hp
  have hlen : ∀ v : Int, (buildRowFor c betw within p.2 q.2.1 q.1 v).1.length =
      (meta :: (betw ++ (within ++ ["subject"]))).length := by
    intro v
    rw [buildRowFor_length c betw within p.2 q.2.1 q.1 v (hb p.2 hsub)
      (hw p.2 hsub q hq) hcount]
    simp only [List.length_cons, List.length_append, List.length_singleton, List.length_nil]
    omega
  show (cellRows (meta :: (betw ++ (within ++ ["subject"]))).length c betw within
    p.2 q.2.1 q.1 (cellValues (getCell mm meta p.1 q.1))).1 = _
  rw [cellRows_map _ c betw within p.2 q.2.1 q.1 hlen]
  rfl

theorem analyse_row_structure_witness :
    countOcc "Subject_type" ["Subject_type", "Gender"] +
      countOcc "Stimuli_type" ["Stimuli_type", "Difficulty"] = 2 ∧
    (∀ sub ∈ [(⟨"p", "s1", "grp", "db", "SQL",
        [("t1", [("blink_rate", some [3, 4])])]⟩ : Subject)],
      ∀ param ∈ ["Subject_type", "Gender"], param ≠ "Subject_type" →
        (lookupBetween
          ⟨"p", "e", [("grp", [("s1", [("Gender", "M")])])], [("t1", ["imgA"])],
            [("t1", [("imgA", [("Difficulty", "easy")])])], [("EyeTracker", ["GazeAOI"])],
            100, 100⟩
          sub.subjType sub.name param).isSome = true) ∧
    (∀ sub ∈ [(⟨"p", "s1", "grp", "db", "SQL",
        [("t1", [("blink_rate", some [3, 4])])]⟩ : Subject)],
      ∀ q ∈ enumF 0 sub.aggregate_meta, ∀ param ∈ ["Stimuli_type", "Difficulty"],
        param ≠ "Stimuli_type" →
        (lookupWithin
          ⟨"p", "e", [("grp", [("s1", [("Gender", "M")])])], [("t1", ["imgA"])],
            [("t1", [("imgA", [("Difficulty", "easy")])])], [("EyeTracker", ["GazeAOI"])],
            100, 100⟩
          q.2.1 q.1 param).isSome = true) ∧
    (∀ p ∈ enumF 0 [(⟨"p", "s1", "grp", "db", "SQL",
        [("t1", [("blink_rate", some [3, 4])])]⟩ : Subject)],
      ∀ q ∈ enumF 0 p.2.aggregate_meta,
        cellSome (getCell [("blink_rate", [[some [3, 4]]])] "blink_rate" p.1 q.1) = true) ∧
    (⟨["blink_rate", "Subject_type", "Gender", "Stimuli_type", "Difficulty", "subject"],
      [[Val.num 3, Val.str "grp", Val.str "M", Val.str "t1", Val.str "easy", Val.str "s1"],
       [Val.num 4, Val.str "grp", Val.str "M", Val.str "t1", Val.str "easy", Val.str "s1"]]⟩ :
        DataFrame).rows =
      catMap (fun p => catMap (fun q =>
        (cellValues (getCell [("blink_rate", [[some [3, 4]]])] "blink_rate" p.1 q.1)).map
          (fun v =>
            Val.num v :: Val.str p.2.subjType ::
              ((betweenVals
                  ⟨"p", "e", [("grp", [("s1", [("Gender", "M")])])], [("t1", ["imgA"])],
                    [("t1", [("imgA", [("Difficulty", "easy")])])],
                    [("EyeTracker", ["GazeAOI"])], 100, 100⟩
                  p.2.subjType p.2.name ["Subject_type", "Gender"]).1 ++
                Val.str q.2.1 ::
                  ((withinVals
                      ⟨"p", "e", [("grp", [("s1", [("Gender", "M")])])], [("t1", ["imgA"])],
                        [("t1", [("imgA", [("Difficulty", "easy")])])],
                        [("EyeTracker", ["GazeAOI"])], 100, 100⟩
                      q.2.1 q.1 ["Stimuli_type", "Difficulty"]).1 ++ [Val.str p.2.name]))))
        (enumF 0 p.2.aggregate_meta))
        (enumF 0 [(⟨"p", "s1", "grp", "db", "SQL",
          [("t1", [("blink_rate", some [3, 4])])]⟩ : Subject)]) :=
  ⟨by decide, by decide, by decide, by decide,
   analyse_row_structure
     ⟨"p", "e", [("grp", [("s1", [("Gender", "M")])])], [("t1", ["imgA"])],
       [("t1", [("imgA", [("Difficulty", "easy")])])], [("EyeTracker", ["GazeAOI"])],
       100, 100⟩
     [("blink_rate", [[some [3, 4]]])] "blink_rate"
     ["Subject_type", "Gender"] ["Stimuli_type", "Difficulty"]
     [⟨"p", "s1", "grp", "db", "SQL", [("t1", [("blink_rate", some [3, 4])])]⟩]
     ⟨["blink_rate", "Subject_type", "Gender", "Stimuli_type", "Difficulty", "subject"],
       [[Val.num 3, Val.str "grp", Val.str "M", Val.str "t1", Val.str "easy", Val.str "s1"],
        [Val.num 4, Val.str "grp", Val.str "M", Val.str "t1", Val.str "easy", Val.str "s1"]]⟩
     [] (by decide) (by decide) (by decide) (by decide) rfl⟩

end PyTrack
